import Mathlib

/-!
Verification development for the managed child-process execution layer
(`spawnAsync`, `spawnStreamAsync`, `execAsync`, `execStreamAsync`,
`bufferToString`, `fixPathForMacIfNeeded`).

The JavaScript strings of the source are modelled as Lean `String`s
(lists of characters); Node `Buffer`s holding decoded text are modelled by
their decoded `String` contents; the platform error object passed to the
`error` event is modelled as an opaque identifier.
-/

namespace SpawnShim

/-- The single-quote character, used when assembling error messages. -/
def squote : String := String.singleton (Char.ofNat 39)

/-- The line-feed character `\n` (0x0A). -/
def nlChar : Char := Char.ofNat 10

/-- The carriage-return character `\r` (0x0D). -/
def crChar : Char := Char.ofNat 13

/-- The empty string. -/
def emptyStr : String := ""

/-- Characters removed by the character-class half of the regex in
`bufferToString`: `[\x00-\x09\x0B-\x0C\x0E-\x1F]`.  Note the first range
ends at 0x09, so horizontal tab is removed; 0x0A (LF) and 0x0D (CR) are
the control characters NOT removed. -/
def strippedChar (c : Char) : Bool :=
  decide (c.toNat ≤ 9) || decide (c.toNat = 11) || decide (c.toNat = 12) ||
    (decide (14 ≤ c.toNat) && decide (c.toNat ≤ 31))

/-- Character-list semantics of the global regex replace
`replace(/[\x00-\x09\x0B-\x0C\x0E-\x1F]|\r?\n$/g, '')` of `bufferToString`:
scanning left to right over the original string, a character in the control
class is dropped, and an occurrence of `\r?\n` whose end coincides with the
end of the original string is dropped (`rest` is the untouched suffix of
the original string, so `rest = []` after the candidate characters means
the match is anchored at the end of the whole string, exactly like `$`). -/
def scrub : List Char → List Char
  | [] => []
  | c :: rest =>
    if strippedChar c then scrub rest
    else if c = crChar ∧ rest = [nlChar] then []
    else if c = nlChar ∧ rest = [] then []
    else c :: scrub rest

/-- Embedding of `bufferToString` (src/unnamed/part_000, lines 251-255),
applied to the decoded contents of the buffer. -/
def bufferToString (s : String) : String := String.mk (scrub s.data)

/-- Modelled from the spec words of the amended claim: the set of removed
control characters is exactly the ranges 0x00-0x09, 0x0B-0x0C, 0x0E-0x1F
(horizontal tab included; LF and CR excluded). -/
def specRemovedChar (c : Char) : Bool :=
  decide (c.toNat ≤ 9) || decide (c.toNat = 11) || decide (c.toNat = 12) ||
    (decide (14 ≤ c.toNat) && decide (c.toNat ≤ 31))

/-- Modelled from the spec words: remove exactly one trailing line
terminator (an optional carriage return followed by a newline) when it is
present at the very end of the string, and nothing else. -/
def trimTrailingNewlineSpec : List Char → List Char
  | [] => []
  | [c] => if c = nlChar then [] else [c]
  | [c, d] => if d = nlChar then (if c = crChar then [] else [c]) else [c, d]
  | c :: rest => c :: trimTrailingNewlineSpec rest

/-- Modelled from the spec words of the amended claim: drop one trailing
line terminator, then remove the characters of the stated control ranges,
leaving every other character (interior newlines included) untouched. -/
def bufferToStringSpec (s : String) : String :=
  String.mk ((trimTrailingNewlineSpec s.data).filter (fun c => ! specRemovedChar c))

/-- Literal piece of the exit error message, first half of the localized
format string of lines 59 and 162 up to the quoted command. -/
def msgHead : String := "Process "

/-- Literal piece of the exit error message between the quoted command and
the exit code. -/
def msgMid : String := " exited with code "

/-- Literal piece prepended to embedded stderr text (the second localized
format string of lines 62 and 164). -/
def msgErrTag : String := "\nError: "

/-- The ellipsis marker appended to a truncated command. -/
def ellipsis : String := "..."

/-- First `n` characters of a string, modelling `command.substring(0, n)`. -/
def takeChars (s : String) (n : Nat) : String := String.mk (s.data.take n)

/-- The command as it appears in the error message:
`command.length > 50 ? command.substring(0, 50) + ... : command`
(lines 59 and 162). -/
def truncatedCommand (command : String) : String :=
  if command.length > 50 then takeChars command 50 ++ ellipsis else command

/-- The base error message of lines 59 and 162 after localization. -/
def exitedMessage (command : String) (code : Int) : String :=
  msgHead ++ squote ++ truncatedCommand command ++ squote ++ msgMid ++ toString code

/-- The conditional `errorMessage +=` of lines 61-63: when a stderr buffer
was supplied its normalized contents are appended after the error tag,
otherwise nothing is appended. -/
def stderrSuffix (stderrBuffer : Option String) : String :=
  match stderrBuffer with
  | some buf => msgErrTag ++ bufferToString buf
  | none => emptyStr

/-- Concatenation of accumulated chunks, modelling
`Buffer.concat(errorChunks).toString()` on decoded chunk contents. -/
def concatChunks (chunks : List String) : String :=
  chunks.foldl (fun a b => a ++ b) emptyStr

/-- How one in-flight operation settles.  `resolved` is `resolve()`;
`cancelled` is `reject(new UserCancelledError())`; `exitFailure` is the
rejection with the `ExecError` built for a truthy exit code, carrying the
message, `error.code`, `error.signal` and `error.stdErrHandled`;
`launchFailure` is `reject(err)` from the `error` event, carrying the
unchanged platform error (modelled as an opaque identifier). -/
inductive SpawnOutcome where
  | resolved
  | cancelled
  | exitFailure (message : String) (code : Int) (signal : Option String)
      (stdErrHandled : Bool)
  | launchFailure (err : Nat)
deriving DecidableEq

/-- The check `token && token.isCancellationRequested`: `none` models no
token supplied; `some b` models a supplied token whose
`isCancellationRequested` is `b` at close time. -/
def tokenCancelRequested : Option Bool → Bool
  | some b => b
  | none => false

/-- Embedding of the `close` handler of `spawnAsync`
(src/unnamed/part_000, lines 50-75).  `code` is the exit code of the close
event (`none` models the null code of a signal-killed process) and the
`else if (code)` truthiness test holds exactly for a non-null non-zero
code.  `stderrBuffer` is the decoded contents of the caller's stderr
buffer when one was supplied, and `onStderrSupplied` records whether the
caller passed an `onStderr` progress callback (`error.stdErrHandled =
onStderr != null`, line 69). -/
def spawnAsyncCloseOutcome (command : String) (token : Option Bool)
    (code : Option Int) (signal : Option String) (stderrBuffer : Option String)
    (onStderrSupplied : Bool) : SpawnOutcome :=
  if tokenCancelRequested token then SpawnOutcome.cancelled
  else
    match code with
    | some c =>
      if c ≠ 0 then
        SpawnOutcome.exitFailure (exitedMessage command c ++ stderrSuffix stderrBuffer)
          c signal onStderrSupplied
      else SpawnOutcome.resolved
    | none => SpawnOutcome.resolved

/-- Embedding of the `close` handler of `spawnStreamAsync`
(src/unnamed/part_000, lines 153-176).  The message always embeds the
normalized concatenation of the accumulated `errorChunks` (line 164), and
`error.stdErrHandled` is the constant `false` of line 170. -/
def spawnStreamAsyncCloseOutcome (command : String) (token : Option Bool)
    (code : Option Int) (signal : Option String)
    (errorChunks : List String) : SpawnOutcome :=
  if tokenCancelRequested token then SpawnOutcome.cancelled
  else
    match code with
    | some c =>
      if c ≠ 0 then
        SpawnOutcome.exitFailure
          (exitedMessage command c ++ msgErrTag ++ bufferToString (concatChunks errorChunks))
          c signal false
      else SpawnOutcome.resolved
    | none => SpawnOutcome.resolved

/-- The terminal event delivered to one operation: either the `error`
event with the platform error, or the `close` event with `(code, signal)`.
Exactly one terminal transition settles the promise. -/
inductive TerminalEvent where
  | errored (err : Nat)
  | closed (code : Option Int) (signal : Option String)
deriving DecidableEq

/-- Result of handling a terminal event: how the promise settled and how
many times `cancellationListener.dispose()` ran in the handler. -/
structure TerminalStep where
  outcome : SpawnOutcome
  listenerDisposals : Nat
deriving DecidableEq

/-- Embedding of the two event handlers of `spawnAsync` (lines 42-75).
Both handlers first run `cancellationListener.dispose()` when a listener
was registered, and a listener is registered exactly when a token was
supplied (lines 116-120), hence one disposal when `token.isSome`. -/
def spawnAsyncTerminal (command : String) (token : Option Bool)
    (stderrBuffer : Option String) (onStderrSupplied : Bool)
    (ev : TerminalEvent) : TerminalStep :=
  match ev with
  | TerminalEvent.errored e =>
    ⟨SpawnOutcome.launchFailure e, if token.isSome then 1 else 0⟩
  | TerminalEvent.closed code signal =>
    ⟨spawnAsyncCloseOutcome command token code signal stderrBuffer onStderrSupplied,
     if token.isSome then 1 else 0⟩

/-- Embedding of the two event handlers of `spawnStreamAsync`
(lines 145-176), with the same disposal discipline (lines 208-212). -/
def spawnStreamAsyncTerminal (command : String) (token : Option Bool)
    (errorChunks : List String) (ev : TerminalEvent) : TerminalStep :=
  match ev with
  | TerminalEvent.errored e =>
    ⟨SpawnOutcome.launchFailure e, if token.isSome then 1 else 0⟩
  | TerminalEvent.closed code signal =>
    ⟨spawnStreamAsyncCloseOutcome command token code signal errorChunks,
     if token.isSome then 1 else 0⟩

/-- Embedding of the stderr wiring of `spawnStreamAsync` (lines 195-206):
the `data` listener that pushes onto `errorChunks` is attached only inside
`if (onStderr)` and `if (process.stderr)`, so the accumulated list is the
arrival-ordered chunk list when both hold and stays empty otherwise. -/
def streamStderrErrorChunks (onStderrSupplied stderrStreamPresent : Bool)
    (stderrData : List String) : List String :=
  if onStderrSupplied && stderrStreamPresent then stderrData else []

/-- One whole `spawnStreamAsync` run: the stderr chunks that arrived are
routed per `streamStderrErrorChunks`, then the terminal event is
handled. -/
def spawnStreamAsyncRun (command : String) (token : Option Bool)
    (onStderrSupplied stderrStreamPresent : Bool) (stderrData : List String)
    (ev : TerminalEvent) : TerminalStep :=
  spawnStreamAsyncTerminal command token
    (streamStderrErrorChunks onStderrSupplied stderrStreamPresent stderrData) ev

/-- Projection of the `stdErrHandled` flag of a rejected `ExecError`. -/
def outcomeStdErrHandled : SpawnOutcome → Option Bool
  | SpawnOutcome.exitFailure _ _ _ h => some h
  | _ => none

/-- Node `buffer.write(data, offset)` on a buffer of the given capacity:
with a valid offset it writes as many bytes as fit and returns the count
actually written; an offset past the end of the buffer is an error
(`none`). -/
def bufferWrite (capacity cursor len : Nat) : Option Nat :=
  if cursor ≤ capacity then some (min len (capacity - cursor)) else none

/-- The cursor bookkeeping of the bounded sink of `spawnAsync`
(`stdoutBytesWritten += stdoutBuffer.write(data, stdoutBytesWritten)`,
lines 93-95 and 109-111), folded over the lengths of the arriving chunks
from a starting cursor. -/
def spawnSinkWritesFrom (capacity : Nat) : Nat → List Nat → Option Nat
  | cursor, [] => some cursor
  | cursor, len :: rest =>
    match bufferWrite capacity cursor len with
    | some w => spawnSinkWritesFrom capacity (cursor + w) rest
    | none => none

/-- Final write cursor of a bounded sink after all chunks, starting at 0. -/
def spawnSinkWrites (capacity : Nat) (chunkLens : List Nat) : Option Nat :=
  spawnSinkWritesFrom capacity 0 chunkLens

/-- The well-known directory of the PATH fix-up. -/
def usrLocalBin : String := "/usr/local/bin"

/-- The PATH suffix appended by the fix-up (line 278). -/
def colonUsrLocalBin : String := ":/usr/local/bin"

/-- The string a JavaScript template literal renders for `undefined`. -/
def undefinedStr : String := "undefined"

/-- Split a character list at every colon, like `String.prototype.split`
with separator colon: the segments are the maximal colon-free runs, and
the result is never empty. -/
def splitOnColon : List Char → List (List Char)
  | [] => [[]]
  | c :: rest =>
    match splitOnColon rest with
    | [] => [[]]
    | seg :: segs =>
      if c = ':' then [] :: seg :: segs else (c :: seg) :: segs

/-- Embedding of the test of line 267,
`/(?<=^|:)\/usr\/local\/bin(?=$|:)/i.test(path)`: the lookbehind anchors
the match at the string start or after a colon and the lookahead at the
string end or before a colon, and the pattern itself contains no colon, so
the regex matches exactly when some whole colon-delimited segment of the
path equals `/usr/local/bin` up to ASCII case. -/
def pathHasUsrLocalBin (path : String) : Bool :=
  (splitOnColon path.data).any (fun seg => seg.map Char.toLower = usrLocalBin.data)

/-- The `options.env` object as far as the fix-up observes it: absent, or
present with an optional `PATH` entry. -/
inductive OptEnv where
  | absent
  | present (path : Option String)
deriving DecidableEq

/-- The path the fix-up tests, `options?.env?.PATH || process.env.PATH!`
(line 267): the caller's `PATH` when it is present and truthy (non-empty),
otherwise the process `PATH` (assumed present, per the non-null
assertion). -/
def effectiveLookupPath (e : OptEnv) (procPATH : String) : String :=
  match e with
  | OptEnv.present (some p) => if p.isEmpty then procPATH else p
  | _ => procPATH

/-- Rendering of `options.env.PATH` inside the template literal of
line 278: a missing `PATH` entry renders as `undefined`. -/
def jsStringOf : Option String → String
  | some s => s
  | none => undefinedStr

/-- Embedding of `fixPathForMacIfNeeded` (src/unnamed/part_000, lines
257-279), projected onto the one environment entry it touches.  On
Windows it returns immediately; when the effective PATH already contains
`/usr/local/bin` as a whole segment it returns; otherwise
`options.env = options.env ?? cloneOfProcessEnv` (so an absent env becomes
a clone whose `PATH` is the process `PATH`) and the fix-up sets
`options.env.PATH` to the template rendering of the old entry followed by
`:/usr/local/bin`. -/
def fixPathForMacIfNeeded (isWin : Bool) (procPATH : String) (e : OptEnv) : OptEnv :=
  if isWin then e
  else if pathHasUsrLocalBin (effectiveLookupPath e procPATH) then e
  else
    match e with
    | OptEnv.absent => OptEnv.present (some (procPATH ++ colonUsrLocalBin))
    | OptEnv.present p => OptEnv.present (some (jsStringOf p ++ colonUsrLocalBin))

/-- A short concrete command used by witnesses. -/
def cmdShort : String := "docker ps"

/-- A concrete chunk of stderr output ending in a newline. -/
def oopsNl : String := "oops\n"

/-- A concrete signal name. -/
def sigkillStr : String := "SIGKILL"

/-- A concrete PATH without `/usr/local/bin`. -/
def demoPath : String := "/usr/bin:/bin"

/-- A concrete PATH containing `/usr/local/bin` as a whole segment in
upper case. -/
def demoPathHas : String := "/usr/bin:/USR/LOCAL/BIN"

/-- A single horizontal tab, as a string. -/
def tabStr : String := "\t"

/-- The success/failure classification of an outcome, forgetting the data
carried by each terminal state. -/
def outcomeClass : SpawnOutcome → Nat
  | SpawnOutcome.resolved => 0
  | SpawnOutcome.cancelled => 1
  | SpawnOutcome.exitFailure _ _ _ _ => 2
  | SpawnOutcome.launchFailure _ => 3

theorem specRemovedChar_eq_strippedChar : specRemovedChar = strippedChar := rfl

theorem trim_cons₃ (c d e : Char) (rest : List Char) :
    trimTrailingNewlineSpec (c :: d :: e :: rest) =
      c :: trimTrailingNewlineSpec (d :: e :: rest) := rfl

theorem strippedChar_nl : strippedChar nlChar = false := by decide

theorem strippedChar_cr : strippedChar crChar = false := by decide

theorem scrub_cons (c : Char) (rest : List Char) :
    scrub (c :: rest) =
      if strippedChar c then scrub rest
      else if c = crChar ∧ rest = [nlChar] then []
      else if c = nlChar ∧ rest = [] then []
      else c :: scrub rest := rfl

theorem scrub_eq_trim_filter : ∀ l : List Char,
    scrub l = (trimTrailingNewlineSpec l).filter (fun c => ! specRemovedChar c)
  | [] => rfl
  | [c] => by
    by_cases hnl : c = nlChar
    · subst hnl
      simp [scrub, trimTrailingNewlineSpec, strippedChar_nl]
    · by_cases hs : strippedChar c = true
      · simp [scrub, trimTrailingNewlineSpec, hs, hnl, specRemovedChar_eq_strippedChar,
          List.filter]
      · simp [scrub, trimTrailingNewlineSpec, hs, hnl, specRemovedChar_eq_strippedChar,
          List.filter]
  | [c, d] => by
    by_cases hc : c = crChar <;> by_cases hd : d = nlChar <;>
      cases hsc : strippedChar c <;> cases hsd : strippedChar d <;>
      simp_all [scrub, trimTrailingNewlineSpec, strippedChar_nl, strippedChar_cr,
        specRemovedChar_eq_strippedChar, List.filter]
  | c :: d :: e :: rest => by
    have ih := scrub_eq_trim_filter (d :: e :: rest)
    have hne2 : ¬(c = crChar ∧ d :: e :: rest = [nlChar]) := by
      rintro ⟨-, h⟩; simp at h
    have hne3 : ¬(c = nlChar ∧ d :: e :: rest = ([] : List Char)) := by
      rintro ⟨-, h⟩; simp at h
    by_cases hs : strippedChar c = true
    · rw [scrub_cons, if_pos hs, trim_cons₃, ih, List.filter_cons]
      have hpc : (!specRemovedChar c) = false := by
        rw [specRemovedChar_eq_strippedChar, hs]; rfl
      simp [hpc]
    · have hb : strippedChar c = false := by
        cases hx : strippedChar c
        · rfl
        · exact absurd hx hs
      have hpc : (!specRemovedChar c) = true := by
        rw [specRemovedChar_eq_strippedChar, hb]; rfl
      rw [scrub_cons, if_neg hs, if_neg hne2, if_neg hne3, trim_cons₃, ih,
        List.filter_cons, if_pos hpc]

/-- C1: for every process close event whose supplied cancellation token
reports a cancellation request at close time, both `spawnAsync` and
`spawnStreamAsync` reject with the distinguished user-cancellation error,
regardless of the exit code or the signal the close event reports;
cancellation takes precedence over non-zero-exit classification. -/
theorem c1_cancellation_precedence (command : String) (code : Option Int)
    (signal : Option String) (stderrBuffer : Option String)
    (onStderrSupplied : Bool) (errorChunks : List String) :
    spawnAsyncCloseOutcome command (some true) code signal stderrBuffer onStderrSupplied =
        SpawnOutcome.cancelled ∧
    spawnStreamAsyncCloseOutcome command (some true) code signal errorChunks =
        SpawnOutcome.cancelled :=
  ⟨rfl, rfl⟩

/-- C2: for every close with a non-zero exit code and no cancellation
request, `spawnAsync` rejects with an error carrying exactly that exit
code and the reported signal, whose message names the command — verbatim
when it is at most 50 characters, otherwise its first 50 characters
followed by an ellipsis marker — and, when a stderr buffer was captured,
embeds the captured normalized stderr text. -/
theorem c2_nonzero_exit_error (command : String) (token : Option Bool) (c : Int)
    (signal : Option String) (stderrBuffer : Option String) (onStderrSupplied : Bool)
    (htok : tokenCancelRequested token = false) (hc : c ≠ 0) :
    spawnAsyncCloseOutcome command token (some c) signal stderrBuffer onStderrSupplied =
      SpawnOutcome.exitFailure
        ((if command.length ≤ 50
            then msgHead ++ squote ++ command ++ squote ++ msgMid ++ toString c
            else msgHead ++ squote ++ takeChars command 50 ++ ellipsis ++ squote ++
              msgMid ++ toString c) ++
          (match stderrBuffer with
           | some buf => msgErrTag ++ bufferToString buf
           | none => emptyStr))
        c signal onStderrSupplied := by
  have hmsg : exitedMessage command c =
      (if command.length ≤ 50
        then msgHead ++ squote ++ command ++ squote ++ msgMid ++ toString c
        else msgHead ++ squote ++ takeChars command 50 ++ ellipsis ++ squote ++
          msgMid ++ toString c) := by
    unfold exitedMessage truncatedCommand
    by_cases hl : command.length ≤ 50
    · rw [if_neg (by omega), if_pos hl]
    · rw [if_pos (by omega), if_neg hl]
      simp [String.append_assoc]
  simp [spawnAsyncCloseOutcome, htok, hc, hmsg, stderrSuffix]

/-- Witness for C2 at a concrete short command, exit code 1, signal null
and a captured stderr buffer. -/
theorem c2_nonzero_exit_error_witness :
    spawnAsyncCloseOutcome cmdShort none (some 1) none (some oopsNl) true =
      SpawnOutcome.exitFailure
        ((if cmdShort.length ≤ 50
            then msgHead ++ squote ++ cmdShort ++ squote ++ msgMid ++ toString (1 : Int)
            else msgHead ++ squote ++ takeChars cmdShort 50 ++ ellipsis ++ squote ++
              msgMid ++ toString (1 : Int)) ++
          (match (some oopsNl : Option String) with
           | some buf => msgErrTag ++ bufferToString buf
           | none => emptyStr))
        1 none true :=
  c2_nonzero_exit_error cmdShort none 1 none (some oopsNl) true rfl (by decide)

/-- C3 counterexample: the claim states that horizontal tab is among the
control characters not removed, but `bufferToString` maps the
one-character string holding a tab (0x09) to the empty string, because the
first stripped range 0x00-0x09 of the code includes tab. -/
theorem c3_tab_counterexample :
    bufferToString tabStr = emptyStr ∧ tabStr ≠ emptyStr :=
  ⟨by decide, by decide⟩

/-- C3 (amended): `bufferToString` is a pure function equal to first
removing one trailing line terminator — an optional carriage return
followed by a newline, only when present at the very end of the whole
string — and then removing exactly the control characters of the ranges
0x00-0x09 (horizontal tab included), 0x0B-0x0C and 0x0E-0x1F, leaving
every other character, interior newlines included, untouched; the control
characters kept are line feed and carriage return. -/
theorem c3_normalizer_characterization :
    (∀ s : String, bufferToString s = bufferToStringSpec s) ∧
    specRemovedChar (Char.ofNat 9) = true ∧
    specRemovedChar nlChar = false ∧
    specRemovedChar crChar = false := by
  refine ⟨fun s => ?_, by decide, by decide, by decide⟩
  unfold bufferToString bufferToStringSpec
  rw [scrub_eq_trim_filter]

theorem spawnSinkWritesFrom_le (capacity : Nat) :
    ∀ (chunkLens : List Nat) (cursor : Nat), cursor ≤ capacity →
      ∃ n, spawnSinkWritesFrom capacity cursor chunkLens = some n ∧ n ≤ capacity
  | [], cursor, h => ⟨cursor, rfl, h⟩
  | len :: rest, cursor, h => by
    have hw : bufferWrite capacity cursor len = some (min len (capacity - cursor)) := by
      simp [bufferWrite, h]
    have h2 : cursor + min len (capacity - cursor) ≤ capacity := by omega
    obtain ⟨n, hn, hle⟩ :=
      spawnSinkWritesFrom_le capacity rest (cursor + min len (capacity - cursor)) h2
    exact ⟨n, by simp [spawnSinkWritesFrom, hw, hn], hle⟩

/-- C4: for every bounded output sink, writes beyond capacity are silently
truncated: over any sequence of chunk lengths no write ever raises (the
fold stays defined), the cursor advances only by bytes actually written
and never exceeds the buffer's capacity, and the close outcome's
success/failure classification does not depend on the captured buffer
contents at all. -/
theorem c4_bounded_sink_truncation (capacity : Nat) (chunkLens : List Nat) :
    (∃ n, spawnSinkWrites capacity chunkLens = some n ∧ n ≤ capacity) ∧
    (∀ (command : String) (token : Option Bool) (code : Option Int)
        (signal : Option String) (b1 b2 : Option String) (onStderrSupplied : Bool),
      outcomeClass (spawnAsyncCloseOutcome command token code signal b1 onStderrSupplied) =
        outcomeClass (spawnAsyncCloseOutcome command token code signal b2 onStderrSupplied)) := by
  constructor
  · exact spawnSinkWritesFrom_le capacity chunkLens 0 (Nat.zero_le capacity)
  · intro command token code signal b1 b2 onStderrSupplied
    cases htok : tokenCancelRequested token
    · rcases code with _ | c
      · simp [spawnAsyncCloseOutcome, htok, outcomeClass]
      · by_cases hc : c ≠ 0 <;>
          simp [spawnAsyncCloseOutcome, htok, hc, outcomeClass]
    · simp [spawnAsyncCloseOutcome, htok, outcomeClass]

/-- C5: for every operation that was given a cancellation token, the
registered cancellation listener is disposed exactly once on the terminal
transition, whichever event fires — the error event, or a close event with
any exit code and signal, cancelled or not. -/
theorem c5_listener_disposed_once (command : String) (token : Option Bool)
    (stderrBuffer : Option String) (onStderrSupplied : Bool)
    (errorChunks : List String) (ev : TerminalEvent)
    (htok : token.isSome = true) :
    (spawnAsyncTerminal command token stderrBuffer onStderrSupplied ev).listenerDisposals
        = 1 ∧
    (spawnStreamAsyncTerminal command token errorChunks ev).listenerDisposals = 1 := by
  cases ev <;> simp [spawnAsyncTerminal, spawnStreamAsyncTerminal, htok]

/-- Witness for C5 at a concrete supplied token and a successful close. -/
theorem c5_listener_disposed_once_witness :
    (spawnAsyncTerminal cmdShort (some false) none false
        (TerminalEvent.closed (some 0) none)).listenerDisposals = 1 ∧
    (spawnStreamAsyncTerminal cmdShort (some false) []
        (TerminalEvent.closed (some 0) none)).listenerDisposals = 1 :=
  c5_listener_disposed_once cmdShort (some false) none false []
    (TerminalEvent.closed (some 0) none) rfl

/-- C6: on Windows the environment is always left unmodified; on a
non-Windows platform, when the effective PATH contains `/usr/local/bin` as
a whole colon-delimited segment up to ASCII case the environment is left
unmodified, and when it does not, the resulting launch environment's PATH
ends with `:/usr/local/bin` — in particular, when the caller supplied no
environment, the result is the clone of the current environment with
`:/usr/local/bin` appended to its PATH. -/
theorem c6_path_fixup (procPATH : String) (e : OptEnv) :
    fixPathForMacIfNeeded true procPATH e = e ∧
    (pathHasUsrLocalBin (effectiveLookupPath e procPATH) = true →
      fixPathForMacIfNeeded false procPATH e = e) ∧
    (pathHasUsrLocalBin (effectiveLookupPath e procPATH) = false →
      (∃ pre, fixPathForMacIfNeeded false procPATH e =
          OptEnv.present (some (pre ++ colonUsrLocalBin))) ∧
      (e = OptEnv.absent →
        fixPathForMacIfNeeded false procPATH e =
          OptEnv.present (some (procPATH ++ colonUsrLocalBin)))) := by
  refine ⟨rfl, ?_, ?_⟩
  · intro h
    simp [fixPathForMacIfNeeded, h]
  · intro h
    constructor
    · cases e with
      | absent => exact ⟨procPATH, by simp [fixPathForMacIfNeeded, h]⟩
      | present p => exact ⟨jsStringOf p, by simp [fixPathForMacIfNeeded, h]⟩
    · intro he
      subst he
      simp [fixPathForMacIfNeeded, h]

/-- Witness for C6: a PATH lacking the segment gets it appended to the
cloned environment, and a PATH containing it as an upper-case whole
segment is left unmodified. -/
theorem c6_path_fixup_witness :
    fixPathForMacIfNeeded false demoPath OptEnv.absent =
      OptEnv.present (some (demoPath ++ colonUsrLocalBin)) ∧
    fixPathForMacIfNeeded false demoPathHas OptEnv.absent = OptEnv.absent :=
  ⟨((c6_path_fixup demoPath OptEnv.absent).2.2 (by decide)).2 rfl,
   (c6_path_fixup demoPathHas OptEnv.absent).2.1 (by decide)⟩

/-- C7 counterexample: a `spawnStreamAsync` run whose caller did supply a
stderr callback still rejects with `stdErrHandled = false` on a non-zero
exit, so the flag is not true whenever the caller supplied its own stderr
handler. -/
theorem c7_stream_flag_counterexample :
    outcomeStdErrHandled
        ((spawnStreamAsyncRun cmdShort none true true [oopsNl]
            (TerminalEvent.closed (some 1) none)).outcome) ≠ some true ∧
    outcomeStdErrHandled
        ((spawnStreamAsyncRun cmdShort none true true [oopsNl]
            (TerminalEvent.closed (some 1) none)).outcome) = some false :=
  ⟨by decide, rfl⟩

/-- C7 (amended): on every non-zero-exit failure without cancellation,
`spawnAsync` sets the error's `stdErrHandled` flag to true exactly when
the caller supplied an `onStderr` callback, while `spawnStreamAsync`
always sets the flag to false, whether or not a stderr callback was
supplied. -/
theorem c7_stderr_handled_flag (command : String) (token : Option Bool) (c : Int)
    (signal : Option String) (stderrBuffer : Option String)
    (onStderrSupplied stderrStreamPresent : Bool) (stderrData : List String)
    (htok : tokenCancelRequested token = false) (hc : c ≠ 0) :
    outcomeStdErrHandled
        (spawnAsyncCloseOutcome command token (some c) signal stderrBuffer
          onStderrSupplied) = some onStderrSupplied ∧
    outcomeStdErrHandled
        ((spawnStreamAsyncRun command token onStderrSupplied stderrStreamPresent
            stderrData (TerminalEvent.closed (some c) signal)).outcome) = some false := by
  constructor <;>
    simp [spawnAsyncCloseOutcome, spawnStreamAsyncRun, spawnStreamAsyncTerminal,
      spawnStreamAsyncCloseOutcome, outcomeStdErrHandled, htok, hc]

/-- Witness for C7 (amended) at exit code 1 with a supplied stderr
callback on both variants. -/
theorem c7_stderr_handled_flag_witness :
    outcomeStdErrHandled
        (spawnAsyncCloseOutcome cmdShort none (some 1) none (some oopsNl) true) =
      some true ∧
    outcomeStdErrHandled
        ((spawnStreamAsyncRun cmdShort none true true [oopsNl]
            (TerminalEvent.closed (some 1) none)).outcome) = some false :=
  c7_stderr_handled_flag cmdShort none 1 none (some oopsNl) true true [oopsNl] rfl
    (by decide)

/-- C8 counterexample: with no caller stderr callback the streaming
variant accumulates nothing even though a stderr chunk arrived, so the
accumulation is not independent of whether a callback was supplied; the
subsequent non-zero-exit failure embeds empty stderr text instead of the
arrived chunk. -/
theorem c8_accumulation_counterexample :
    streamStderrErrorChunks false true [oopsNl] = [] ∧
    [oopsNl] ≠ ([] : List String) ∧
    (spawnStreamAsyncRun cmdShort none false true [oopsNl]
        (TerminalEvent.closed (some 1) none)).outcome =
      SpawnOutcome.exitFailure
        (exitedMessage cmdShort 1 ++ msgErrTag ++ bufferToString emptyStr) 1 none false :=
  ⟨rfl, by decide, rfl⟩

/-- C8 (amended): when the caller supplies a stderr callback and the
process exposes a stderr stream, `spawnStreamAsync` accumulates the
arriving stderr chunks internally in arrival order, and on every
non-zero-exit failure without cancellation the error message embeds the
normalized concatenation of exactly those chunks; without a callback
nothing is accumulated. -/
theorem c8_stream_accumulation (command : String) (token : Option Bool) (c : Int)
    (signal : Option String) (stderrData : List String)
    (htok : tokenCancelRequested token = false) (hc : c ≠ 0) :
    streamStderrErrorChunks true true stderrData = stderrData ∧
    (spawnStreamAsyncRun command token true true stderrData
        (TerminalEvent.closed (some c) signal)).outcome =
      SpawnOutcome.exitFailure
        (exitedMessage command c ++ msgErrTag ++ bufferToString (concatChunks stderrData))
        c signal false ∧
    streamStderrErrorChunks false true stderrData = [] := by
  refine ⟨rfl, ?_, rfl⟩
  simp [spawnStreamAsyncRun, spawnStreamAsyncTerminal, spawnStreamAsyncCloseOutcome,
    streamStderrErrorChunks, htok, hc]

/-- Witness for C8 (amended) at a concrete chunk list and exit code 2. -/
theorem c8_stream_accumulation_witness :
    streamStderrErrorChunks true true [oopsNl] = [oopsNl] ∧
    (spawnStreamAsyncRun cmdShort none true true [oopsNl]
        (TerminalEvent.closed (some 2) none)).outcome =
      SpawnOutcome.exitFailure
        (exitedMessage cmdShort 2 ++ msgErrTag ++ bufferToString (concatChunks [oopsNl]))
        2 none false ∧
    streamStderrErrorChunks false true [oopsNl] = [] :=
  c8_stream_accumulation cmdShort none 2 none [oopsNl] rfl (by decide)

/-- C9: when the process reports a launch/runtime error instead of closing
normally, both operations reject with the underlying platform error
propagated unchanged — no wrapping and no reclassification. -/
theorem c9_launch_error_propagated (command : String) (token : Option Bool)
    (stderrBuffer : Option String) (onStderrSupplied : Bool)
    (errorChunks : List String) (err : Nat) :
    (spawnAsyncTerminal command token stderrBuffer onStderrSupplied
        (TerminalEvent.errored err)).outcome = SpawnOutcome.launchFailure err ∧
    (spawnStreamAsyncTerminal command token errorChunks
        (TerminalEvent.errored err)).outcome = SpawnOutcome.launchFailure err :=
  ⟨rfl, rfl⟩

/-- C10: every close event without a cancellation request whose exit code
is falsy — zero, or the null code reported for a signal-killed process —
resolves both `spawnAsync` and `spawnStreamAsync` successfully. -/
theorem c10_falsy_code_resolves (command : String) (token : Option Bool)
    (code : Option Int) (signal : Option String) (stderrBuffer : Option String)
    (onStderrSupplied : Bool) (errorChunks : List String)
    (htok : tokenCancelRequested token = false)
    (hcode : code = none ∨ code = some 0) :
    spawnAsyncCloseOutcome command token code signal stderrBuffer onStderrSupplied =
        SpawnOutcome.resolved ∧
    spawnStreamAsyncCloseOutcome command token code signal errorChunks =
        SpawnOutcome.resolved := by
  rcases hcode with h | h <;> subst h <;> constructor <;>
    simp [spawnAsyncCloseOutcome, spawnStreamAsyncCloseOutcome, htok]

/-- Witness for C10: a process killed by SIGKILL (null exit code) without
cancellation resolves successfully on both variants. -/
theorem c10_falsy_code_resolves_witness :
    spawnAsyncCloseOutcome cmdShort none none (some sigkillStr) none false =
        SpawnOutcome.resolved ∧
    spawnStreamAsyncCloseOutcome cmdShort none none (some sigkillStr) [] =
        SpawnOutcome.resolved :=
  c10_falsy_code_resolves cmdShort none none (some sigkillStr) none false [] rfl
    (Or.inl rfl)

end SpawnShim
